import Mathlib

/-!
Verification of the mock news generator and display logic of `keta.new.py`.

The program defines a fixed segment-to-query map `MARKET_SEGMENTS`, a fixed
list of timeframe labels `TIMEFRAME_OPTIONS`, a pure generator
`fetch_mock_news(segment_key, timeframe)` producing five mock articles from
`datetime.date.today()`, and a display block that sorts the generated
articles by date descending before rendering.

Embedding choices:
* Calendar dates are day numbers (`Int`, days since 1970-01-01); the Python
  code stores `article_date.strftime("%Y-%m-%d")` and parses it back with
  `pd.to_datetime` before sorting, so the date content round-trips and the
  day number is the faithful semantic value.  `daysFromCivil` converts a
  civil date (year, month, day) to its day number so concrete scenarios can
  be stated with calendar dates.
* `datetime.date.today()` becomes an explicit `today : Int` parameter.
* A Python `KeyError` (raised by `MARKET_SEGMENTS[segment_key]` on an
  unknown key) becomes `Option.none`.
-/

namespace Keta

/-- The `MARKET_SEGMENTS` dict of the source: display name to query string. -/
def MARKET_SEGMENTS : List (String × String) :=
  [ ("Large Cap FNO", "Nifty 50, Sensex, Reliance, HDFC Bank, Large Cap FNO news")
  , ("Mid Cap FNO", "Nifty Midcap 100, Midcap FNO news")
  , ("Small Cap FNO", "Nifty Smallcap 100, Smallcap FNO news")
  , ("All FNO", "Indian F&O market news, derivative segment") ]

/-- The `TIMEFRAME_OPTIONS` list of the source. -/
def TIMEFRAME_OPTIONS : List String :=
  [ "Last One Week", "Last One Month", "Last Three Months" ]

/-- A mock news article: the dictionary built in the loop of
`fetch_mock_news`.  The `date` field is the day number of the article date
(the Python code stores its ISO rendering). -/
structure Article where
  title : String
  source : String
  date : Int
  summary : String
  url : String
deriving DecidableEq, Repr

/-- One character of `segment_key.replace(' ', '-').lower()`:
replace a space by a hyphen, then lowercase. -/
def charSlug (c : Char) : Char :=
  Char.toLower (if c = ' ' then '-' else c)

/-- `segment_key.replace(' ', '-').lower()` of the source. -/
def mkSlug (s : String) : String :=
  String.mk (s.data.map charSlug)

/-- `search_query.split(',')[0].strip()` of the source: the text before the
first comma, with surrounding spaces removed (the only whitespace occurring
in the query strings is the space character). -/
def firstCommaSegment (s : String) : String :=
  String.mk
    ((((s.data.takeWhile (fun c => c ≠ ',')).dropWhile
        (fun c => c = ' ')).reverse.dropWhile (fun c => c = ' ')).reverse)

/-- The article dictionary built at loop index `i` (1-based) of
`fetch_mock_news`, given the segment key, the timeframe, the query string
looked up for the segment and the computed `start_date`. -/
def mkArticle (segment_key timeframe search_query : String)
    (start_date : Int) (i : Nat) : Article :=
  { title := "(" ++ segment_key ++ ") Market Update: " ++
      firstCommaSegment search_query ++ " Shows Volatility " ++ toString i
  , source := "Financial Times " ++ toString (i % 3 + 1)
  , date := start_date + (i : Int) * 5
  , summary := "Detailed analysis shows that " ++ segment_key ++
      " indices experienced a sharp rise followed by a consolidation phase over the " ++
      timeframe ++
      " period. Key drivers included FII activity and sector-specific policy changes. The outlook remains cautious."
  , url := "https://mock-news.com/" ++ mkSlug segment_key ++ "-" ++ toString i }

/-- `fetch_mock_news(segment_key, timeframe)` of the source, with
`datetime.date.today()` passed explicitly as the day number `today`.
`MARKET_SEGMENTS[segment_key]` raises `KeyError` on an unknown key, which
the embedding renders as `none`; the timeframe branch mirrors the
`if/elif/else` chain of the source (any string other than the first two
labels falls into the `else` branch). -/
def fetch_mock_news (segment_key timeframe : String) (today : Int) :
    Option (List Article) :=
  match MARKET_SEGMENTS.lookup segment_key with
  | none => none
  | some search_query =>
    let start_date : Int :=
      if timeframe = "Last One Week" then today - 7
      else if timeframe = "Last One Month" then today - 30
      else today - 90
    some ((List.range' 1 5).map
      (mkArticle segment_key timeframe search_query start_date))

/-- Sorting relation of the display block: date descending
(`df.sort_values(by='date', ascending=False)`). -/
def dateDesc (a b : Article) : Prop := b.date ≤ a.date

instance : DecidableRel dateDesc := fun a b => by
  unfold dateDesc; infer_instance

instance : IsTotal Article dateDesc :=
  ⟨fun a b => le_total b.date a.date⟩

instance : IsTrans Article dateDesc :=
  ⟨fun _ _ _ h1 h2 => le_trans h2 h1⟩

/-- The sort performed by the display block. -/
def sortByDateDesc (l : List Article) : List Article :=
  List.insertionSort dateDesc l

/-- The main display block of the source, run with `run_fetch` true: fetch
the news, and if the list is non-empty sort it by date descending and emit
it; an empty list (or a fetch failure) emits nothing. -/
def run_display (segment timeframe : String) (today : Int) :
    Option (List Article) :=
  match fetch_mock_news segment timeframe today with
  | none => none
  | some news_data =>
    if news_data.isEmpty then none else some (sortByDateDesc news_data)

/-- Day number (days since 1970-01-01) of a civil date, for years ≥ 1
(Gregorian calendar, standard era-based conversion). -/
def daysFromCivil (y m d : Nat) : Int :=
  let y' := if m ≤ 2 then y - 1 else y
  let era := y' / 400
  let yoe := y' - era * 400
  let doy := (153 * (if 2 < m then m - 3 else m + 9) + 2) / 5 + d - 1
  let doe := yoe * 365 + yoe / 4 - yoe / 100 + doy
  (((era * 146097 + doe : Nat)) : Int) - 719468

/-- A segment key is valid when it is a key of `MARKET_SEGMENTS`. -/
def validSegment (s : String) : Prop :=
  (MARKET_SEGMENTS.lookup s).isSome = true

instance (s : String) : Decidable (validSegment s) := by
  unfold validSegment; infer_instance

/-- A timeframe label is valid when it is one of `TIMEFRAME_OPTIONS`. -/
def validTimeframe (t : String) : Prop :=
  t ∈ TIMEFRAME_OPTIONS

instance (t : String) : Decidable (validTimeframe t) := by
  unfold validTimeframe; infer_instance

/-- The day offset the spec associates to each timeframe label
(7 / 30 / 90 days). -/
def offset_days (t : String) : Int :=
  if t = "Last One Week" then 7
  else if t = "Last One Month" then 30
  else 90

/-- The list of article dates of a fetch result. -/
def dateList (o : Option (List Article)) : Option (List Int) :=
  o.map (fun l => l.map Article.date)

/-- Article date window test of the spec, as a Boolean. -/
def inWindowB (t : String) (today : Int) (a : Article) : Bool :=
  decide (today - (offset_days t + 1) < a.date) &&
  decide (a.date ≤ today - 1 + 5 * 5)

/-- Whether an article is dated strictly after `today`. -/
def futureB (today : Int) (a : Article) : Bool :=
  decide (today < a.date)

/-- The url of the article at (0-based) position `j` of a fetch result. -/
def urlAt (o : Option (List Article)) (j : Nat) : String :=
  ((o.getD []).map Article.url).getD j ""

/-- Successive dates in generation order differ by exactly five days. -/
def dateStep (a b : Article) : Prop := b.date = a.date + 5

/-- A valid segment key has a query string in `MARKET_SEGMENTS`. -/
theorem lookup_of_valid {s : String} (hs : validSegment s) :
    ∃ q, MARKET_SEGMENTS.lookup s = some q := by
  unfold validSegment at hs
  exact Option.isSome_iff_exists.mp hs

/-- An option known to be `some` equals `some` of its `getD` value. -/
theorem option_eq_some_getD {α : Type} (o : Option α) (d : α)
    (h : o.isSome = true) : o = some (o.getD d) := by
  cases o
  · cases h
  · rfl

/-- Unfolding `fetch_mock_news` when the segment lookup succeeds: the five
articles in generation order, with start date `today - offset_days t`. -/
theorem fetch_explicit (s t q : String) (today : Int)
    (hq : MARKET_SEGMENTS.lookup s = some q) :
    fetch_mock_news s t today =
      some [ mkArticle s t q (today - offset_days t) 1
           , mkArticle s t q (today - offset_days t) 2
           , mkArticle s t q (today - offset_days t) 3
           , mkArticle s t q (today - offset_days t) 4
           , mkArticle s t q (today - offset_days t) 5 ] := by
  unfold fetch_mock_news offset_days
  rw [hq]
  split_ifs <;> rfl

/-- Appending distinct strings to a common prefix yields distinct strings. -/
theorem string_append_ne (a : String) {x y : String} (h : x ≠ y) :
    a ++ x ≠ a ++ y := by
  intro he
  apply h
  have hd : (a ++ x).data = (a ++ y).data := by rw [he]
  rw [String.data_append, String.data_append] at hd
  exact String.ext (List.append_cancel_left hd)

/-- Distinct small naturals have distinct decimal renderings. -/
theorem toString_digit_ne {i j : Nat} (hi : i ≤ 5) (hj : j ≤ 5)
    (hij : i ≠ j) : (toString i : String) ≠ toString j := by
  interval_cases i <;> interval_cases j <;>
    first
      | exact absurd rfl hij
      | decide

/-- C1: for every valid pair (segment key among the four fixed keys,
timeframe among the three fixed labels) and any fixed today,
`fetch_mock_news` returns a list of exactly 5 article records. -/
theorem C1_returns_five (s t : String) (today : Int)
    (hs : validSegment s) (ht : validTimeframe t) :
    (fetch_mock_news s t today).map List.length = some 5 := by
  obtain ⟨q, hq⟩ := lookup_of_valid hs
  rw [fetch_explicit s t q today hq]
  rfl

theorem C1_returns_five_witness :
    (fetch_mock_news "Large Cap FNO" "Last One Week" 0).map List.length =
      some 5 :=
  C1_returns_five "Large Cap FNO" "Last One Week" 0 (by decide) (by decide)

/-- C2: for every valid input, article `i` (1-based) is dated
`today - offset_days t + 5 * i`; concretely, for segment "Mid Cap FNO",
timeframe "Last One Week", today = 2024-01-15: article 1 is dated
2024-01-13, article 5 is dated 2024-02-02, and article 1's title is
"(Mid Cap FNO) Market Update: Nifty Midcap 100 Shows Volatility 1". -/
theorem C2_dates (s t : String) (today : Int)
    (hs : validSegment s) (ht : validTimeframe t) :
    dateList (fetch_mock_news s t today) =
      some [ today - offset_days t + 5 * 1, today - offset_days t + 5 * 2
           , today - offset_days t + 5 * 3, today - offset_days t + 5 * 4
           , today - offset_days t + 5 * 5 ] ∧
    dateList (fetch_mock_news "Mid Cap FNO" "Last One Week"
        (daysFromCivil 2024 1 15)) =
      some [ daysFromCivil 2024 1 13, daysFromCivil 2024 1 18
           , daysFromCivil 2024 1 23, daysFromCivil 2024 1 28
           , daysFromCivil 2024 2 2 ] ∧
    (((fetch_mock_news "Mid Cap FNO" "Last One Week"
        (daysFromCivil 2024 1 15)).getD []).map Article.title).getD 0 "" =
      "(Mid Cap FNO) Market Update: Nifty Midcap 100 Shows Volatility 1" := by
  refine ⟨?_, by decide, by decide⟩
  obtain ⟨q, hq⟩ := lookup_of_valid hs
  rw [dateList, fetch_explicit s t q today hq]
  simp [mkArticle]

theorem C2_dates_witness :
    dateList (fetch_mock_news "Mid Cap FNO" "Last One Week"
        (daysFromCivil 2024 1 15)) =
      some [ daysFromCivil 2024 1 15 - offset_days "Last One Week" + 5 * 1
           , daysFromCivil 2024 1 15 - offset_days "Last One Week" + 5 * 2
           , daysFromCivil 2024 1 15 - offset_days "Last One Week" + 5 * 3
           , daysFromCivil 2024 1 15 - offset_days "Last One Week" + 5 * 4
           , daysFromCivil 2024 1 15 - offset_days "Last One Week" + 5 * 5 ] ∧
    dateList (fetch_mock_news "Mid Cap FNO" "Last One Week"
        (daysFromCivil 2024 1 15)) =
      some [ daysFromCivil 2024 1 13, daysFromCivil 2024 1 18
           , daysFromCivil 2024 1 23, daysFromCivil 2024 1 28
           , daysFromCivil 2024 2 2 ] ∧
    (((fetch_mock_news "Mid Cap FNO" "Last One Week"
        (daysFromCivil 2024 1 15)).getD []).map Article.title).getD 0 "" =
      "(Mid Cap FNO) Market Update: Nifty Midcap 100 Shows Volatility 1" :=
  C2_dates "Mid Cap FNO" "Last One Week" (daysFromCivil 2024 1 15)
    (by decide) (by decide)

/-- C3 fails on the code: at the invalid timeframe label "Next Year" (with
a valid segment) `fetch_mock_news` does not fail; it returns five articles,
dated with the silent 90-day default of the `else` branch
(today = 0 gives dates -85, -80, -75, -70, -65). -/
theorem C3_counterexample :
    ¬ validTimeframe "Next Year" ∧
    (fetch_mock_news "Large Cap FNO" "Next Year" 0).isSome = true ∧
    dateList (fetch_mock_news "Large Cap FNO" "Next Year" 0) =
      some [-85, -80, -75, -70, -65] := by
  refine ⟨by decide, by decide, by decide⟩

/-- C3 amended: for every timeframe outside the three fixed labels (and a
valid segment), `fetch_mock_news` does not fail: it silently falls into the
`else` branch and returns five articles with the 90-day offset, dated
`today - 90 + 5 * i`. -/
theorem C3_amended_silent_default (s t : String) (today : Int)
    (hs : validSegment s) (ht : ¬ validTimeframe t) :
    (fetch_mock_news s t today).isSome = true ∧
    dateList (fetch_mock_news s t today) =
      some [ today - 90 + 5 * 1, today - 90 + 5 * 2, today - 90 + 5 * 3
           , today - 90 + 5 * 4, today - 90 + 5 * 5 ] := by
  obtain ⟨q, hq⟩ := lookup_of_valid hs
  have h1 : t ≠ "Last One Week" := by
    intro he; exact ht (by rw [he]; decide)
  have h2 : t ≠ "Last One Month" := by
    intro he; exact ht (by rw [he]; decide)
  have hoff : offset_days t = 90 := by
    unfold offset_days
    rw [if_neg h1, if_neg h2]
  constructor
  · rw [fetch_explicit s t q today hq]; rfl
  · rw [dateList, fetch_explicit s t q today hq, hoff]
    simp [mkArticle]

theorem C3_amended_silent_default_witness :
    (fetch_mock_news "Small Cap FNO" "Next Year" 7).isSome = true ∧
    dateList (fetch_mock_news "Small Cap FNO" "Next Year" 7) =
      some [ 7 - 90 + 5 * 1, 7 - 90 + 5 * 2, 7 - 90 + 5 * 3
           , 7 - 90 + 5 * 4, 7 - 90 + 5 * 5 ] :=
  C3_amended_silent_default "Small Cap FNO" "Next Year" 7
    (by decide) (by decide)

/-- C4: whatever the display block emits is sorted by date descending:
every adjacent pair (a, b) of the emitted sequence has `b.date ≤ a.date`. -/
theorem C4_sorted_desc (s t : String) (today : Int) (out : List Article)
    (h : run_display s t today = some out) :
    out.Chain' dateDesc := by
  unfold run_display at h
  split at h
  · cases h
  · next l heq =>
    split at h
    · cases h
    · injection h with h'
      rw [← h']
      unfold sortByDateDesc
      exact (List.sorted_insertionSort dateDesc l).chain'

theorem C4_sorted_desc_witness :
    ((run_display "All FNO" "Last One Week" 0).getD []).Chain' dateDesc :=
  C4_sorted_desc "All FNO" "Last One Week" 0
    ((run_display "All FNO" "Last One Week" 0).getD [])
    (option_eq_some_getD _ [] (by rfl))

/-- C5: for every valid pair and fixed today, every returned date lies in
the derived window: strictly after `today - (offset_days t + 1)` and at
most `today - 1 + 5 * 5`. -/
theorem C5_window (s t : String) (today : Int)
    (hs : validSegment s) (ht : validTimeframe t)
    (arts : List Article) (h : fetch_mock_news s t today = some arts) :
    arts.all (inWindowB t today) = true := by
  obtain ⟨q, hq⟩ := lookup_of_valid hs
  rw [fetch_explicit s t q today hq] at h
  injection h with h'
  rw [← h']
  have hoff : offset_days t = 7 ∨ offset_days t = 30 ∨ offset_days t = 90 := by
    unfold validTimeframe TIMEFRAME_OPTIONS at ht
    simp only [List.mem_cons, List.not_mem_nil, or_false] at ht
    rcases ht with rfl | rfl | rfl
    · left; decide
    · right; left; decide
    · right; right; decide
  rcases hoff with ho | ho | ho <;>
    simp [inWindowB, mkArticle, ho] <;> omega

theorem C5_window_witness :
    ((fetch_mock_news "Mid Cap FNO" "Last One Month" 50).getD []).all
      (inWindowB "Last One Month" 50) = true :=
  C5_window "Mid Cap FNO" "Last One Month" 50 (by decide) (by decide)
    ((fetch_mock_news "Mid Cap FNO" "Last One Month" 50).getD [])
    (option_eq_some_getD _ [] (by rfl))

/-- C6: for every valid segment, with timeframe "Last One Week" the fetch
succeeds and at least one returned article is dated strictly after today
(the +5*i offset overshoots the 7-day lookback). -/
theorem C6_future_article (s : String) (today : Int) (hs : validSegment s) :
    (fetch_mock_news s "Last One Week" today).isSome = true ∧
    ((fetch_mock_news s "Last One Week" today).getD []).any
      (futureB today) = true := by
  obtain ⟨q, hq⟩ := lookup_of_valid hs
  rw [fetch_explicit s "Last One Week" q today hq]
  refine ⟨rfl, ?_⟩
  have ho : offset_days "Last One Week" = 7 := by decide
  simp [futureB, mkArticle, ho]
  omega

theorem C6_future_article_witness :
    (fetch_mock_news "All FNO" "Last One Week" 1000).isSome = true ∧
    ((fetch_mock_news "All FNO" "Last One Week" 1000).getD []).any
      (futureB 1000) = true :=
  C6_future_article "All FNO" 1000 (by decide)

/-- C7: `fetch_mock_news` is deterministic for a fixed calendar day: two
calls with identical (segment, timeframe) inputs and the same today produce
identical output, field for field. -/
theorem C7_deterministic (s t : String) (today : Int)
    (r1 r2 : Option (List Article))
    (h1 : fetch_mock_news s t today = r1)
    (h2 : fetch_mock_news s t today = r2) : r1 = r2 := by
  rw [← h1, ← h2]

theorem C7_deterministic_witness :
    fetch_mock_news "Mid Cap FNO" "Last One Month" 100 =
      fetch_mock_news "Mid Cap FNO" "Last One Month" 100 :=
  C7_deterministic "Mid Cap FNO" "Last One Month" 100 _ _ rfl rfl

/-- C8: for every segment key not among the four fixed keys,
`fetch_mock_news` fails (the `KeyError` of the dict lookup, i.e. `none`)
rather than returning a default or empty list, for every timeframe. -/
theorem C8_invalid_segment (s t : String) (today : Int)
    (hs : ¬ validSegment s) :
    fetch_mock_news s t today = none := by
  unfold validSegment at hs
  unfold fetch_mock_news
  split
  · rfl
  · next q heq =>
    exact absurd (by rw [heq]; rfl) hs

theorem C8_invalid_segment_witness :
    fetch_mock_news "Large Cap Equity" "Last One Week" 0 = none :=
  C8_invalid_segment "Large Cap Equity" "Last One Week" 0 (by decide)

/-- C9: for segment "Large Cap FNO" and any valid timeframe, the fetch
returns five articles and the url of article 3 (0-based position 2) equals
exactly "https://mock-news.com/large-cap-fno-3". -/
theorem C9_url_slug (t : String) (today : Int) (ht : validTimeframe t) :
    (fetch_mock_news "Large Cap FNO" t today).map List.length = some 5 ∧
    urlAt (fetch_mock_news "Large Cap FNO" t today) 2 =
      "https://mock-news.com/large-cap-fno-3" := by
  have hq : MARKET_SEGMENTS.lookup "Large Cap FNO" =
      some "Nifty 50, Sensex, Reliance, HDFC Bank, Large Cap FNO news" := by
    rfl
  rw [fetch_explicit "Large Cap FNO" t _ today hq]
  exact ⟨rfl, rfl⟩

theorem C9_url_slug_witness :
    (fetch_mock_news "Large Cap FNO" "Last Three Months" 77).map
      List.length = some 5 ∧
    urlAt (fetch_mock_news "Large Cap FNO" "Last Three Months" 77) 2 =
      "https://mock-news.com/large-cap-fno-3" :=
  C9_url_slug "Last Three Months" 77 (by decide)

/-- C10: for every valid pair and fixed today, the five returned articles
have pairwise distinct urls and pairwise distinct titles, and their dates
in generation order are strictly increasing, each exactly 5 days after the
previous one. -/
theorem C10_distinct_and_steps (s t : String) (today : Int)
    (hs : validSegment s) (ht : validTimeframe t)
    (arts : List Article) (h : fetch_mock_news s t today = some arts) :
    (arts.map Article.url).Nodup ∧ (arts.map Article.title).Nodup ∧
    arts.Chain' dateStep := by
  obtain ⟨q, hq⟩ := lookup_of_valid hs
  rw [fetch_explicit s t q today hq] at h
  injection h with h'
  rw [← h']
  refine ⟨?_, ?_, ?_⟩
  · simp only [List.map_cons, List.map_nil, mkArticle, List.nodup_cons,
      List.mem_cons, List.not_mem_nil, or_false, List.nodup_nil, and_true,
      not_or, List.mem_singleton]
    repeat' apply And.intro
    all_goals
      first
        | exact not_false
        | exact string_append_ne _
            (toString_digit_ne (by norm_num) (by norm_num) (by norm_num))
  · simp only [List.map_cons, List.map_nil, mkArticle, List.nodup_cons,
      List.mem_cons, List.not_mem_nil, or_false, List.nodup_nil, and_true,
      not_or, List.mem_singleton]
    repeat' apply And.intro
    all_goals
      first
        | exact not_false
        | exact string_append_ne _
            (toString_digit_ne (by norm_num) (by norm_num) (by norm_num))
  · simp only [List.chain'_cons, List.chain'_singleton, dateStep, mkArticle]
    repeat' apply And.intro
    all_goals
      first
        | trivial
        | (push_cast; ring)

theorem C10_distinct_and_steps_witness :
    (((fetch_mock_news "Large Cap FNO" "Last Three Months" 0).getD []).map
        Article.url).Nodup ∧
    (((fetch_mock_news "Large Cap FNO" "Last Three Months" 0).getD []).map
        Article.title).Nodup ∧
    ((fetch_mock_news "Large Cap FNO" "Last Three Months" 0).getD
        []).Chain' dateStep :=
  C10_distinct_and_steps "Large Cap FNO" "Last Three Months" 0 (by decide)
    (by decide)
    ((fetch_mock_news "Large Cap FNO" "Last Three Months" 0).getD [])
    (option_eq_some_getD _ [] (by rfl))

end Keta
